import Mathlib

/-!
Shallow embedding of src/httpproxy/filters/direct/direct.go (package
direct of the goproxy repository): the configuration record, the
NewFilter constructor, and the CONNECT branch of Filter.RoundTrip,
together with theorems about them.

External calls (Go standard library and repository packages outside this
source file) are modelled as oracle parameters recording their outcomes:
url.Parse, proxy.FromURL, helpers.LocalInterfaceIPs, the outcome of the
transport dial, the Hijacker and Flusher capabilities of the response
writer, and the outcome of the hijack.  Go durations are int64 nanosecond
counts, modelled as Int with time.Second = 10^9 nanoseconds.  The float32
configuration field RetryDelay is modelled as a rational number; the Go
float32 multiplication RetryDelay*1000 is modelled as exact rational
multiplication, which agrees with float32 arithmetic on the concrete
values used below (for instance 0.5 * 1000 = 500 is exact in float32),
and the Go conversion of the product to the integer time.Duration type
truncates toward zero, modelled by truncated integer division.
-/

namespace Direct

/-- Go time.Second in nanoseconds (a Go time.Duration is an int64 count
of nanoseconds). -/
def goSecond : Int := 1000000000

/-- Go conversion of a numeric value to the int64-based time.Duration
type truncates toward zero; for a rational num/den this is the truncated
integer division Int.tdiv. -/
def ratTruncToInt (q : ℚ) : Int := Int.tdiv q.num (q.den : Int)

/-- Config.Transport.Dialer of direct.go. -/
structure DialerConfig where
  Timeout : Int
  KeepAlive : Int
  DualStack : Bool
  RetryTimes : Int
  RetryDelay : ℚ
  DNSCacheExpiry : Int
  DNSCacheSize : Nat
deriving DecidableEq, Inhabited

/-- Config.Transport.Proxy of direct.go. -/
structure ProxyConfig where
  Enabled : Bool
  URL : String
deriving DecidableEq, Inhabited

/-- Config.Transport.TLSClientConfig of direct.go. -/
structure TLSClientSettings where
  InsecureSkipVerify : Bool
  ClientSessionCacheSize : Int
deriving DecidableEq, Inhabited

/-- Config.Transport of direct.go. -/
structure TransportConfig where
  Dialer : DialerConfig
  Proxy : ProxyConfig
  TLSClientConfig : TLSClientSettings
  DisableKeepAlives : Bool
  DisableCompression : Bool
  TLSHandshakeTimeout : Int
  MaxIdleConnsPerHost : Int
deriving DecidableEq, Inhabited

/-- Config of direct.go. -/
structure Config where
  Transport : TransportConfig
deriving DecidableEq, Inhabited

/-- Which dial function is installed in the transport's Dial field:
the resilient dialer d.Dial built in NewFilter, or the generic proxy
dialer returned by proxy.FromURL.  A transport whose Dial field is the
Go nil function is modelled by Option.none. -/
inductive DialKind
  | direct
  | proxyGeneric
deriving DecidableEq, Inhabited

/-- Model of the crypto/tls.Config built in NewFilter: the verification
mode and the capacity handed to tls.NewLRUClientSessionCache. -/
structure TLSConfig where
  InsecureSkipVerify : Bool
  SessionCacheCapacity : Int
deriving DecidableEq, Inhabited

/-- Model of the http.Transport built in NewFilter.  Proxy is the URL
installed via http.ProxyURL (none models the nil Proxy func).  Fields not
assigned by NewFilter keep their Go zero value; in particular
DisableKeepAlives is never assigned and the composite literal leaves it
false. -/
structure Transport where
  Dial : Option DialKind
  DialTLS : Option DialKind
  Proxy : Option String
  TLSClientConfig : TLSConfig
  TLSHandshakeTimeout : Int
  MaxIdleConnsPerHost : Int
  DisableCompression : Bool
  DisableKeepAlives : Bool
deriving DecidableEq, Inhabited

/-- Model of the dialer.Dialer value d built in NewFilter; duration
fields are nanosecond counts, DNSCacheSize is the capacity passed to
lrucache.NewLRUCache, and LoopbackAddrs lists the string forms of the
local interface addresses inserted into the map. -/
structure Dialer where
  Timeout : Int
  KeepAlive : Int
  DualStack : Bool
  RetryTimes : Int
  RetryDelay : Int
  DNSCacheExpiry : Int
  DNSCacheSize : Nat
  LoopbackAddrs : List String
deriving DecidableEq, Inhabited

/-- Model of the Filter struct of direct.go.  The Go Filter stores the
configuration and the transport; the dialer d is captured by the
transport's Dial closure, recorded here as an explicit field. -/
structure Filter where
  config : Config
  transport : Transport
  dialer : Dialer
deriving DecidableEq, Inhabited

/-- Outcome of the Go standard library call url.Parse on the configured
proxy URL: the parsed URL's Scheme on success, or a parse error. -/
inductive URLParse
  | ok (scheme : String)
  | err (msg : String)
deriving DecidableEq, Inhabited

/-- Oracle outcomes of the external calls made by NewFilter: url.Parse
(Go standard library), proxy.FromURL (repository package proxy, not under
src/) and helpers.LocalInterfaceIPs (repository package helpers, not
under src/). -/
structure NewFilterEnv where
  parseURL : URLParse
  fromURL : Except String Unit
  localInterfaceIPs : Except String (List String)

/-- Result of running NewFilter: glog.Fatalf terminates the process, so
a fatal log is modelled as a terminal fatal result distinct from any
returned Filter. -/
inductive StartupResult
  | fatal (msg : String)
  | ok (f : Filter)
deriving DecidableEq, Inhabited

/-- NewFilter of direct.go: builds the resilient dialer d and the
http.Transport tr, then branches on the proxy configuration exactly as
the source does: proxying disabled keeps tr.Dial = d.Dial; an http or
https scheme installs http.ProxyURL and sets tr.Dial and tr.DialTLS to
nil; any other scheme replaces tr.Dial by the generic proxy dialer from
proxy.FromURL; url.Parse or proxy.FromURL failure is glog.Fatalf. -/
def NewFilter (config : Config) (env : NewFilterEnv) : StartupResult :=
  let d : Dialer := {
    Timeout := config.Transport.Dialer.Timeout * goSecond
    KeepAlive := config.Transport.Dialer.KeepAlive * goSecond
    DualStack := config.Transport.Dialer.DualStack
    RetryTimes := config.Transport.Dialer.RetryTimes
    RetryDelay := ratTruncToInt (config.Transport.Dialer.RetryDelay * 1000) * goSecond
    DNSCacheExpiry := config.Transport.Dialer.DNSCacheExpiry * goSecond
    DNSCacheSize := config.Transport.Dialer.DNSCacheSize
    LoopbackAddrs :=
      match env.localInterfaceIPs with
      | Except.ok ips => ips
      | Except.error _ => [] }
  let tr : Transport := {
    Dial := some DialKind.direct
    DialTLS := none
    Proxy := none
    TLSClientConfig := {
      InsecureSkipVerify := config.Transport.TLSClientConfig.InsecureSkipVerify
      SessionCacheCapacity := config.Transport.TLSClientConfig.ClientSessionCacheSize }
    TLSHandshakeTimeout := config.Transport.TLSHandshakeTimeout * goSecond
    MaxIdleConnsPerHost := config.Transport.MaxIdleConnsPerHost
    DisableCompression := config.Transport.DisableCompression
    DisableKeepAlives := false }
  if config.Transport.Proxy.Enabled then
    match env.parseURL with
    | URLParse.err _ => StartupResult.fatal ("url.Parse failed")
    | URLParse.ok scheme =>
      if scheme = ("http") ∨ scheme = ("https") then
        StartupResult.ok {
          config := config
          dialer := d
          transport := { tr with
            Proxy := some config.Transport.Proxy.URL
            Dial := none
            DialTLS := none } }
      else
        match env.fromURL with
        | Except.error _ => StartupResult.fatal ("proxy.FromURL failed")
        | Except.ok _ =>
          StartupResult.ok {
            config := config
            dialer := d
            transport := { tr with
              Dial := some DialKind.proxyGeneric
              DialTLS := none
              Proxy := none } }
  else
    StartupResult.ok { config := config, dialer := d, transport := tr }

/-- True exactly when NewFilter ended in glog.Fatalf. -/
def isFatal : StartupResult → Bool
  | StartupResult.fatal _ => true
  | StartupResult.ok _ => false

/-- The filter NewFilter returns, when it returns one. -/
def builtFilter (config : Config) (env : NewFilterEnv) : Option Filter :=
  match NewFilter config env with
  | StartupResult.ok f => some f
  | StartupResult.fatal _ => none

/-- Oracle outcomes of the external interactions of the CONNECT branch
of RoundTrip: the result of the transport dial (a fresh outbound
connection identifier, or an error), whether the response writer
implements http.Hijacker and http.Flusher, and the result of the hijack
(the inbound connection identifier, or an error). -/
structure ConnectEnv where
  dialResult : Except String Nat
  rwIsHijacker : Bool
  rwIsFlusher : Bool
  hijackResult : Except String Nat

/-- Observable events of the CONNECT branch, in program order.  The
spawned copy direction (go helpers.IoCopy(rconn, lconn)) is recorded at
its spawn point; the deferred lconn.Close() is recorded where it runs, on
exit.  ioCopy dst src mirrors the helpers.IoCopy argument order. -/
inductive Event
  | dialAttempt (network host : String)
  | writeHeader (status : Nat)
  | flush
  | hijack
  | ioCopy (dst src : Nat)
  | closeConn (c : Nat)
deriving DecidableEq, Inhabited

/-- The response values RoundTrip can yield on the CONNECT branch:
filters.DummyResponse only. -/
inductive RespKind
  | dummy
deriving DecidableEq, Inhabited

/-- Result of the CONNECT branch: either the Go panic caused by calling
a nil transport.Dial function, or a normal return carrying the optional
response and the optional error. -/
inductive RTOutcome
  | panicNilDial
  | ret (resp : Option RespKind) (err : Option String)
deriving DecidableEq, Inhabited

/-- Error message for a response writer that does not implement
http.Hijacker. -/
def hijackerErrMsg : String := "http.ResponseWriter does not implement http.Hijacker"

/-- Error message for a response writer that does not implement
http.Flusher. -/
def flusherErrMsg : String := "http.ResponseWriter does not implement http.Flusher"

/-- Error message wrapping a failed Hijack call. -/
def hijackFailMsg : String := "Hijack failed"

/-- The CONNECT branch of Filter.RoundTrip of direct.go, as an event
trace plus outcome.  It calls f.transport.Dial("tcp", req.Host) — a
nil-function-call panic when the Dial field is nil — then checks the
Hijacker and Flusher capabilities, writes and flushes the status-200
header, hijacks the inbound connection, registers the deferred
lconn.Close(), spawns helpers.IoCopy(rconn, lconn), runs
helpers.IoCopy(lconn, rconn), and returns filters.DummyResponse.

Modelled from the spec: helpers.IoCopy lives in the repository package
helpers, which is not under src/.  Per the spec's TunnelRelay contract a
copy direction "copies bytes from a to b" as part of "a byte-exact
duplex pipe" with no application-level parsing, so an ioCopy event is a
pure directional byte copy; the closing of connections in the CONNECT
path is what direct.go itself performs (the deferred lconn.Close()). -/
def connectRoundTrip (tr : Transport) (env : ConnectEnv) (host : String) :
    List Event × RTOutcome :=
  match tr.Dial with
  | none => ([], RTOutcome.panicNilDial)
  | some _ =>
    match env.dialResult with
    | Except.error e => ([Event.dialAttempt ("tcp") host], RTOutcome.ret none (some e))
    | Except.ok rconn =>
      if env.rwIsHijacker = false then
        ([Event.dialAttempt ("tcp") host], RTOutcome.ret none (some hijackerErrMsg))
      else if env.rwIsFlusher = false then
        ([Event.dialAttempt ("tcp") host], RTOutcome.ret none (some flusherErrMsg))
      else
        match env.hijackResult with
        | Except.error _ =>
          ([Event.dialAttempt ("tcp") host, Event.writeHeader 200,
            Event.flush, Event.hijack],
           RTOutcome.ret none (some hijackFailMsg))
        | Except.ok lconn =>
          ([Event.dialAttempt ("tcp") host, Event.writeHeader 200,
            Event.flush, Event.hijack,
            Event.ioCopy rconn lconn, Event.ioCopy lconn rconn,
            Event.closeConn lconn],
           RTOutcome.ret (some RespKind.dummy) none)

/-- Identifier of the connection a close event closes, if any. -/
def closeTag : Event → Option Nat
  | Event.closeConn c => some c
  | _ => none

/-- How many events of the trace close connection c. -/
def closeCount (c : Nat) : List Event → Nat
  | [] => 0
  | e :: t => (if closeTag e = some c then 1 else 0) + closeCount c t

/-- The spec's reading of the retry delay, stated from the spec's words
for comparison with the dialer NewFilter builds: retryDelay is seconds
with fractional precision, hence retryDelay * 10^9 nanoseconds. -/
def specRetryDelayNanos (q : ℚ) : ℚ := q * (1000000000 : ℚ)

/-- A concrete configuration with proxying disabled; RetryDelay is the
0.5 of the spec's example (exact in float32). -/
def cfg0 : Config := {
  Transport := {
    Dialer := {
      Timeout := 16
      KeepAlive := 180
      DualStack := true
      RetryTimes := 2
      RetryDelay := (1 : ℚ) / 2
      DNSCacheExpiry := 600
      DNSCacheSize := 4096 }
    Proxy := { Enabled := false, URL := ("") }
    TLSClientConfig := { InsecureSkipVerify := false, ClientSessionCacheSize := 1000 }
    DisableKeepAlives := false
    DisableCompression := false
    TLSHandshakeTimeout := 8
    MaxIdleConnsPerHost := 8 } }

/-- A construction environment whose external calls all succeed; the
proxy URL is never parsed when proxying is disabled. -/
def envPlain : NewFilterEnv := {
  parseURL := URLParse.err ("unused")
  fromURL := Except.ok ()
  localInterfaceIPs := Except.ok [("127.0.0.1"), ("192.168.1.2")] }

/-- The filter built from cfg0 and envPlain. -/
def fDirect : Filter :=
  match NewFilter cfg0 envPlain with
  | StartupResult.ok f => f
  | StartupResult.fatal _ => default

/-- cfg0 with upstream proxying enabled on a native http scheme URL. -/
def cfgProxyOn : Config := {
  Transport := { cfg0.Transport with
    Proxy := { Enabled := true, URL := ("http://127.0.0.1:8087") } } }

/-- Construction environment whose url.Parse yields scheme http. -/
def envHTTP : NewFilterEnv := {
  parseURL := URLParse.ok ("http")
  fromURL := Except.ok ()
  localInterfaceIPs := Except.ok [("127.0.0.1")] }

/-- The filter built from cfgProxyOn and envHTTP. -/
def fProxyOn : Filter :=
  match NewFilter cfgProxyOn envHTTP with
  | StartupResult.ok f => f
  | StartupResult.fatal _ => default

/-- A CONNECT environment where the dial succeeds with outbound
connection 1, the response writer has both capabilities, and the hijack
succeeds with inbound connection 2. -/
def cenvOK : ConnectEnv := {
  dialResult := Except.ok 1
  rwIsHijacker := true
  rwIsFlusher := true
  hijackResult := Except.ok 2 }

/-- C1: with upstream proxying enabled and a native http or https scheme
URL, NewFilter installs http.ProxyURL on the transport but sets the
transport's Dial field to nil; the CONNECT branch of RoundTrip then calls
f.transport.Dial directly, which is a nil-function-call panic, so a
CONNECT request in this configuration crashes instead of opening the raw
outbound connection through the proxy. -/
theorem c1_connect_native_proxy_panics (cfg : Config) (env : NewFilterEnv)
    (cenv : ConnectEnv) (host : String) (f : Filter) (s : String)
    (hen : cfg.Transport.Proxy.Enabled = true)
    (hp : env.parseURL = URLParse.ok s)
    (hs : s = ("http") ∨ s = ("https"))
    (hok : NewFilter cfg env = StartupResult.ok f) :
    f.transport.Dial = none ∧
    (connectRoundTrip f.transport cenv host).2 = RTOutcome.panicNilDial := by
  simp only [NewFilter, hen, hp, if_true] at hok
  rw [if_pos hs] at hok
  injection hok with hok
  subst hok
  exact ⟨rfl, rfl⟩

/-- C1 witness: a concrete proxy-enabled configuration with an http
scheme URL on which the CONNECT branch hits the nil transport Dial. -/
theorem c1_witness :
    fProxyOn.transport.Dial = none ∧
    (connectRoundTrip fProxyOn.transport cenvOK ("example.com:443")).2
      = RTOutcome.panicNilDial :=
  c1_connect_native_proxy_panics cfgProxyOn envHTTP cenvOK ("example.com:443")
    fProxyOn ("http") rfl rfl (Or.inl rfl) rfl

/-- C2: at RetryDelay = 0.5 the dialer built by NewFilter has retry
delay time.Duration(0.5*1000)*time.Second = 500 seconds = 5*10^11
nanoseconds, while reading RetryDelay as seconds with fractional
precision gives 0.5 seconds = 5*10^8 nanoseconds: the code's delay is a
factor 1000 larger than the claimed one. -/
theorem c2_retry_delay_scaling_bug :
    (builtFilter cfg0 envPlain).map (fun f => f.dialer.RetryDelay)
      = some (500 * goSecond)
    ∧ specRetryDelayNanos cfg0.Transport.Dialer.RetryDelay = (500000000 : ℚ)
    ∧ (500 * goSecond : Int) ≠ (500000000 : Int) := by
  refine ⟨?_, ?_, by decide⟩
  · simp [builtFilter, NewFilter, cfg0, envPlain]
    left
    norm_num [ratTruncToInt]
  · simp only [specRetryDelayNanos, cfg0]
    norm_num

/-- cfg0 with the keep-alive-disable flag set in the configuration. -/
def cfgKA : Config := {
  Transport := { cfg0.Transport with DisableKeepAlives := true } }

/-- C3 counterexample: with DisableKeepAlives = true in the
configuration, the transport built by NewFilter still has
DisableKeepAlives = false — NewFilter never copies this field onto the
transport, so the keep-alive-disable flag does not disable keep-alives. -/
theorem c3_counterexample :
    cfgKA.Transport.DisableKeepAlives = true
    ∧ (builtFilter cfgKA envPlain).map (fun f => f.transport.DisableKeepAlives)
        = some false
    ∧ (builtFilter cfgKA envPlain).map (fun f => f.transport.DisableKeepAlives)
        ≠ some cfgKA.Transport.DisableKeepAlives := by
  refine ⟨rfl, rfl, ?_⟩
  intro h
  simp [builtFilter, NewFilter, cfgKA, cfg0] at h

/-- C3 amended: the transport built by NewFilter carries the
configuration's compression-disable flag, handshake timeout (seconds
converted to nanoseconds), max idle connections per host and TLS
verification mode, but its keep-alive-disable flag is always false,
whatever the configuration says. -/
theorem c3_transport_reuse_policy (cfg : Config) (env : NewFilterEnv) (f : Filter)
    (h : NewFilter cfg env = StartupResult.ok f) :
    f.transport.DisableCompression = cfg.Transport.DisableCompression
    ∧ f.transport.TLSHandshakeTimeout = cfg.Transport.TLSHandshakeTimeout * goSecond
    ∧ f.transport.MaxIdleConnsPerHost = cfg.Transport.MaxIdleConnsPerHost
    ∧ f.transport.TLSClientConfig.InsecureSkipVerify
        = cfg.Transport.TLSClientConfig.InsecureSkipVerify
    ∧ f.transport.DisableKeepAlives = false := by
  simp only [NewFilter] at h
  split at h
  · split at h
    · exact StartupResult.noConfusion h
    · split at h
      · injection h with h
        subst h
        exact ⟨rfl, rfl, rfl, rfl, rfl⟩
      · split at h
        · exact StartupResult.noConfusion h
        · injection h with h
          subst h
          exact ⟨rfl, rfl, rfl, rfl, rfl⟩
  · injection h with h
    subst h
    exact ⟨rfl, rfl, rfl, rfl, rfl⟩

/-- C3 witness: the amended transport policy at the concrete direct
configuration. -/
theorem c3_witness :
    fDirect.transport.DisableCompression = cfg0.Transport.DisableCompression
    ∧ fDirect.transport.TLSHandshakeTimeout = cfg0.Transport.TLSHandshakeTimeout * goSecond
    ∧ fDirect.transport.MaxIdleConnsPerHost = cfg0.Transport.MaxIdleConnsPerHost
    ∧ fDirect.transport.TLSClientConfig.InsecureSkipVerify
        = cfg0.Transport.TLSClientConfig.InsecureSkipVerify
    ∧ fDirect.transport.DisableKeepAlives = false :=
  c3_transport_reuse_policy cfg0 envPlain fDirect rfl

/-- C4 amended: on the successful CONNECT path (dial succeeded, both
capabilities present, hijack succeeded) the hijacked inbound connection
is closed exactly once — by the deferred close, which runs on the single
exit path after the hijack — while the outbound connection is never
closed by the handler. -/
theorem c4_close_discipline (tr : Transport) (env : ConnectEnv) (host : String)
    (k : DialKind) (rconn lconn : Nat)
    (hd : tr.Dial = some k) (hr : env.dialResult = Except.ok rconn)
    (hh : env.rwIsHijacker = true) (hf : env.rwIsFlusher = true)
    (hj : env.hijackResult = Except.ok lconn) (hne : rconn ≠ lconn) :
    closeCount lconn (connectRoundTrip tr env host).1 = 1
    ∧ closeCount rconn (connectRoundTrip tr env host).1 = 0
    ∧ (connectRoundTrip tr env host).2 = RTOutcome.ret (some RespKind.dummy) none := by
  simp only [connectRoundTrip, hd, hr, hh, hf, hj]
  refine ⟨?_, ?_, rfl⟩
  · simp [closeCount, closeTag]
  · simp [closeCount, closeTag, Ne.symm hne]

/-- C4 witness: the amended close discipline at a concrete successful
tunnel with outbound connection 1 and inbound connection 2. -/
theorem c4_witness :
    closeCount 2 (connectRoundTrip fDirect.transport cenvOK ("example.com:443")).1 = 1
    ∧ closeCount 1 (connectRoundTrip fDirect.transport cenvOK ("example.com:443")).1 = 0
    ∧ (connectRoundTrip fDirect.transport cenvOK ("example.com:443")).2
        = RTOutcome.ret (some RespKind.dummy) none :=
  c4_close_discipline fDirect.transport cenvOK ("example.com:443")
    DialKind.direct 1 2 rfl rfl rfl rfl rfl (by decide)

/-- C4 counterexample: on that same successful tunnel the outbound
connection (1) is closed zero times, not exactly once: only the inbound
connection (2) is closed, by the deferred close. -/
theorem c4_counterexample :
    ¬ (closeCount 1 (connectRoundTrip fDirect.transport cenvOK ("example.com:443")).1 = 1) := by
  decide

/-- C5: when the outbound dial of a CONNECT request fails, RoundTrip
returns a nil response together with the dial error, and the trace
contains no WriteHeader and no Flush event: no status or acknowledgment
bytes reach the inbound client. -/
theorem c5_dial_failure_no_ack (tr : Transport) (env : ConnectEnv) (host : String)
    (k : DialKind) (e : String)
    (hd : tr.Dial = some k) (he : env.dialResult = Except.error e) :
    (connectRoundTrip tr env host).2 = RTOutcome.ret none (some e)
    ∧ (∀ s, Event.writeHeader s ∉ (connectRoundTrip tr env host).1)
    ∧ Event.flush ∉ (connectRoundTrip tr env host).1 := by
  simp [connectRoundTrip, hd, he]

/-- A CONNECT environment whose outbound dial fails. -/
def cenvDialFail : ConnectEnv := {
  dialResult := Except.error ("connection refused")
  rwIsHijacker := true
  rwIsFlusher := true
  hijackResult := Except.error ("unreached") }

/-- C5 witness: concrete failing dial, the error is surfaced with a nil
response. -/
theorem c5_witness :
    (connectRoundTrip fDirect.transport cenvDialFail ("example.com:443")).2
      = RTOutcome.ret none (some ("connection refused")) :=
  (c5_dial_failure_no_ack fDirect.transport cenvDialFail ("example.com:443")
    DialKind.direct ("connection refused") rfl rfl).1

/-- C6: whenever the CONNECT path reaches the hijack, the event trace
begins with the dial, the status-200 WriteHeader and the Flush, in that
order and strictly before the hijack event, and every relay copy event
lies strictly after those first four events. -/
theorem c6_ack_flushed_before_hijack_and_relay (tr : Transport) (env : ConnectEnv)
    (host : String)
    (hmem : Event.hijack ∈ (connectRoundTrip tr env host).1) :
    (connectRoundTrip tr env host).1.take 4
      = [Event.dialAttempt ("tcp") host, Event.writeHeader 200,
         Event.flush, Event.hijack]
    ∧ ∀ a b, Event.ioCopy a b ∈ (connectRoundTrip tr env host).1
        → Event.ioCopy a b ∈ (connectRoundTrip tr env host).1.drop 4 := by
  rcases htr : tr.Dial with _ | k
  · simp [connectRoundTrip, htr] at hmem
  · rcases hdr : env.dialResult with e | rconn
    · simp [connectRoundTrip, htr, hdr] at hmem
    · cases hh : env.rwIsHijacker
      · simp [connectRoundTrip, htr, hdr, hh] at hmem
      · cases hf : env.rwIsFlusher
        · simp [connectRoundTrip, htr, hdr, hh, hf] at hmem
        · rcases hj : env.hijackResult with e | lconn
          · refine ⟨?_, ?_⟩
            · simp [connectRoundTrip, htr, hdr, hh, hf, hj]
            · intro a b hab
              simp [connectRoundTrip, htr, hdr, hh, hf, hj] at hab
          · refine ⟨?_, ?_⟩
            · simp [connectRoundTrip, htr, hdr, hh, hf, hj]
            · intro a b hab
              simp only [connectRoundTrip, htr, hdr, hh, hf, hj] at hab ⊢
              simp at hab ⊢
              tauto

/-- C6 witness: the trace of a concrete successful tunnel starts with
dial, WriteHeader 200, Flush, hijack, in that order. -/
theorem c6_witness :
    (connectRoundTrip fDirect.transport cenvOK ("example.com:443")).1.take 4
      = [Event.dialAttempt ("tcp") ("example.com:443"), Event.writeHeader 200,
         Event.flush, Event.hijack] :=
  (c6_ack_flushed_before_hijack_and_relay fDirect.transport cenvOK
    ("example.com:443") (by decide)).1

/-- C8: when the CONNECT dial succeeds but the response writer lacks the
Hijacker capability or the Flusher capability, RoundTrip returns at once
a nil response and the corresponding capability error, after exactly one
dial attempt and with no bytes written: the whole result is the single
dial event and the error. -/
theorem c8_capability_error (tr : Transport) (env : ConnectEnv) (host : String)
    (k : DialKind) (rconn : Nat)
    (hd : tr.Dial = some k) (hr : env.dialResult = Except.ok rconn)
    (hcap : env.rwIsHijacker = false ∨ env.rwIsFlusher = false) :
    connectRoundTrip tr env host
      = ([Event.dialAttempt ("tcp") host],
         RTOutcome.ret none
           (some (if env.rwIsHijacker = true then flusherErrMsg else hijackerErrMsg))) := by
  rcases hcap with hcap | hcap
  · simp [connectRoundTrip, hd, hr, hcap]
  · cases hh : env.rwIsHijacker
    · simp [connectRoundTrip, hd, hr, hh]
    · simp [connectRoundTrip, hd, hr, hh, hcap]

/-- A CONNECT environment whose response writer has neither capability. -/
def cenvNoHijacker : ConnectEnv := {
  dialResult := Except.ok 1
  rwIsHijacker := false
  rwIsFlusher := false
  hijackResult := Except.error ("unreached") }

/-- C8 witness: a concrete writer without the Hijacker capability gets
the Hijacker capability error with a nil response after one dial. -/
theorem c8_witness :
    connectRoundTrip fDirect.transport cenvNoHijacker ("example.com:443")
      = ([Event.dialAttempt ("tcp") ("example.com:443")],
         RTOutcome.ret none
           (some (if cenvNoHijacker.rwIsHijacker = true
                  then flusherErrMsg else hijackerErrMsg))) :=
  c8_capability_error fDirect.transport cenvNoHijacker ("example.com:443")
    DialKind.direct 1 rfl rfl (Or.inl rfl)

/-- C9: when the dial succeeds and both capabilities are present but the
hijack itself fails, RoundTrip returns a nil response and an error even
though the status-200 WriteHeader and the Flush are already in the
trace: an error result from CONNECT handling does not imply that no
success acknowledgment was sent. -/
theorem c9_error_after_flushed_ack (tr : Transport) (env : ConnectEnv) (host : String)
    (k : DialKind) (rconn : Nat) (e : String)
    (hd : tr.Dial = some k) (hr : env.dialResult = Except.ok rconn)
    (hh : env.rwIsHijacker = true) (hf : env.rwIsFlusher = true)
    (hj : env.hijackResult = Except.error e) :
    (connectRoundTrip tr env host).2 = RTOutcome.ret none (some hijackFailMsg)
    ∧ Event.writeHeader 200 ∈ (connectRoundTrip tr env host).1
    ∧ Event.flush ∈ (connectRoundTrip tr env host).1 := by
  simp [connectRoundTrip, hd, hr, hh, hf, hj]

/-- A CONNECT environment whose hijack fails after the capabilities
checks pass. -/
def cenvHijackFail : ConnectEnv := {
  dialResult := Except.ok 1
  rwIsHijacker := true
  rwIsFlusher := true
  hijackResult := Except.error ("connection gone") }

/-- C9 witness: concrete failing hijack, error result with the flushed
status-200 acknowledgment already in the trace. -/
theorem c9_witness :
    (connectRoundTrip fDirect.transport cenvHijackFail ("example.com:443")).2
      = RTOutcome.ret none (some hijackFailMsg)
    ∧ Event.writeHeader 200 ∈ (connectRoundTrip fDirect.transport cenvHijackFail ("example.com:443")).1
    ∧ Event.flush ∈ (connectRoundTrip fDirect.transport cenvHijackFail ("example.com:443")).1 :=
  c9_error_after_flushed_ack fDirect.transport cenvHijackFail ("example.com:443")
    DialKind.direct 1 ("connection gone") rfl rfl rfl rfl rfl

/-- C7: with upstream proxying enabled, a proxy URL that url.Parse
rejects — or one whose non-native scheme the generic proxy connector
proxy.FromURL rejects — makes NewFilter end in glog.Fatalf: construction
is a fatal startup error, no Filter value is produced, and the error is
never deferred to per-request handling. -/
theorem c7_fatal_on_bad_proxy_url (cfg : Config) (env : NewFilterEnv)
    (hen : cfg.Transport.Proxy.Enabled = true) :
    (∀ e, env.parseURL = URLParse.err e →
        NewFilter cfg env = StartupResult.fatal ("url.Parse failed"))
    ∧ (∀ s e, env.parseURL = URLParse.ok s → s ≠ ("http") → s ≠ ("https")
        → env.fromURL = Except.error e →
        NewFilter cfg env = StartupResult.fatal ("proxy.FromURL failed")) := by
  constructor
  · intro e hp
    simp [NewFilter, hen, hp]
  · intro s e hp h1 h2 hf
    simp [NewFilter, hen, hp, h1, h2, hf]

/-- Construction environment whose url.Parse fails. -/
def envBadURL : NewFilterEnv := {
  parseURL := URLParse.err ("missing protocol scheme")
  fromURL := Except.ok ()
  localInterfaceIPs := Except.ok [] }

/-- C7 witness: a malformed proxy URL on a proxy-enabled configuration
is a fatal startup error. -/
theorem c7_witness :
    NewFilter cfgProxyOn envBadURL = StartupResult.fatal ("url.Parse failed") :=
  (c7_fatal_on_bad_proxy_url cfgProxyOn envBadURL rfl).1
    ("missing protocol scheme") rfl

/-- C10: a failure of helpers.LocalInterfaceIPs during construction is
swallowed: any filter NewFilter returns under such an environment has an
empty loopback-address set — loop-prevention filtering is silently
disabled — and whether construction is fatal does not depend on the
enumeration outcome, so no error is surfaced. -/
theorem c10_interface_error_ignored (cfg : Config) (env : NewFilterEnv) (e : String)
    (he : env.localInterfaceIPs = Except.error e) :
    (∀ f, NewFilter cfg env = StartupResult.ok f → f.dialer.LoopbackAddrs = [])
    ∧ (∀ ips, isFatal (NewFilter cfg env)
        = isFatal (NewFilter cfg { env with localInterfaceIPs := Except.ok ips })) := by
  constructor
  · intro f h
    simp only [NewFilter, he] at h
    split at h
    · split at h
      · exact StartupResult.noConfusion h
      · split at h
        · injection h with h
          subst h
          rfl
        · split at h
          · exact StartupResult.noConfusion h
          · injection h with h
            subst h
            rfl
    · injection h with h
      subst h
      rfl
  · intro ips
    cases hen : cfg.Transport.Proxy.Enabled
    · simp [NewFilter, hen, isFatal]
    · cases hp : env.parseURL with
      | ok s =>
        by_cases hs : s = ("http") ∨ s = ("https")
        · simp [NewFilter, hen, hp, hs, isFatal]
        · cases hfu : env.fromURL with
          | ok u => simp [NewFilter, hen, hp, hs, hfu, isFatal]
          | error m => simp [NewFilter, hen, hp, hs, hfu, isFatal]
      | err m => simp [NewFilter, hen, hp, isFatal]

/-- Construction environment whose local-interface enumeration fails. -/
def envNetFail : NewFilterEnv := {
  parseURL := URLParse.err ("unused")
  fromURL := Except.ok ()
  localInterfaceIPs := Except.error ("route ip+net netlinkrib operation not permitted") }

/-- The filter built from cfg0 when interface enumeration failed. -/
def fNetFail : Filter :=
  match NewFilter cfg0 envNetFail with
  | StartupResult.ok f => f
  | StartupResult.fatal _ => default

/-- C10 witness: with a concrete failing enumeration the construction
still yields a filter, and its loopback-address set is empty. -/
theorem c10_witness : fNetFail.dialer.LoopbackAddrs = [] :=
  (c10_interface_error_ignored cfg0 envNetFail
    ("route ip+net netlinkrib operation not permitted") rfl).1 fNetFail rfl

end Direct
